import Mathlib

/-!
# ModuleEeprom.c (boards/alpha250/patches/fsbl)

A shallow embedding of the module EEPROM identity reader: the process-wide
identity record, `Eeprom_Initialise`, `Eeprom_ReadBasicModuleInfo`,
`Eeprom_GetModuleInfo` and `Eeprom_Read`.

The functions the file calls but does not define (the ATSHA204A address
encoder and bus read, the product-number decoder) and the three byte-address
constants are fields of `Collaborators`; the world they act on is an explicit
state `σ` threaded through every call.
-/

namespace ModuleEeprom

/-! ## Types declared in headers -/

/-- Modelled from the spec: the result codes of `EN_RESULT`, whose declaration
is in a header outside this file. The spec names success, `NullArgument`
(`EN_ERROR_NULL_POINTER` in the source) and the failures of the collaborators
(`InvalidAddress`, `TransportFailure`), kept here as `EN_ERROR code`. -/
inductive EN_RESULT where
  | EN_SUCCESS
  | EN_ERROR_NULL_POINTER
  | EN_ERROR (code : Nat)
  deriving DecidableEq, Repr

open EN_RESULT

/-- Modelled from the spec: the test made by the macro `EN_RETURN_IF_FAILED`,
declared outside this file: a step has failed when its result is not
success ("the first failing step aborts the entire sequence and returns that
step's error"). -/
def EN_FAILED (r : EN_RESULT) : Bool :=
  r != EN_SUCCESS

/-- Modelled from the spec: the zone selector, "a closed enumeration (at
minimum: OTP zone)"; it is declared in AtmelAtsha204a.h. -/
inductive EZoneSelect where
  | EZoneSelect_Config
  | EZoneSelect_Otp
  | EZoneSelect_Data
  deriving DecidableEq, Repr

/-- Modelled from the spec: the size selector of a bus read; the reads of this
file are all "fixed-size", 4 bytes. It is declared in AtmelAtsha204a.h. -/
inductive EReadSizeSelect where
  | EReadSizeSelect_4Bytes
  | EReadSizeSelect_32Bytes
  deriving DecidableEq, Repr

open EZoneSelect EReadSizeSelect

/-- One element of a `uint8_t` array. -/
abbrev uint8_t := Fin 256

/-- The contents of a `uint8_t[4]` array (`readBuffer`, `macAddressBuffer1`,
`macAddressBuffer2`). -/
structure Buf4 where
  b0 : uint8_t
  b1 : uint8_t
  b2 : uint8_t
  b3 : uint8_t
  deriving DecidableEq, Repr

/-- Indexing `buffer[i]` of a `uint8_t[4]`; the source only uses 0..3. -/
def Buf4.get (b : Buf4) (i : Nat) : uint8_t :=
  match i with
  | 0 => b.b0
  | 1 => b.b1
  | 2 => b.b2
  | _ => b.b3

/-! ## Enum and globals of ModuleEeprom.c -/

/-- Maxim DS28CN01 (value of `EEepromDevice_t`, an I2C address). -/
def EEepromDevice_MaximDs28cn01_0 : Nat := 0x5C

/-- Maxim DS28CN01 (value of `EEepromDevice_t`, an I2C address). -/
def EEepromDevice_MaximDs28cn01_1 : Nat := 0x50

/-- Atmel ATSHA204A (value of `EEepromDevice_t`, an I2C address). -/
def EEepromDevice_AtmelAtsha204a : Nat := 0x64

/-- Array of all possible EEPROM device addresses. -/
def EEPROM_DEVICE_ADDRESSES : List Nat :=
  [EEepromDevice_MaximDs28cn01_0, EEepromDevice_MaximDs28cn01_1, EEepromDevice_AtmelAtsha204a]

/-- The file-scope variables of ModuleEeprom.c. `PNI` stands for
`ProductNumberInfo_t`, a struct declared outside this file. -/
structure Globals (PNI : Type) where
  g_EepromDeviceType : Nat
  g_moduleSerialNumber : Nat
  g_productNumberInfo : PNI
  g_macAddress : Nat
  deriving DecidableEq, Repr

/-- The globals at program start: C zero-initialises objects of static
storage duration; `zeroInfo` is the all-zero `ProductNumberInfo_t`. -/
def initialGlobals {PNI : Type} (zeroInfo : PNI) : Globals PNI :=
  { g_EepromDeviceType := 0
    g_moduleSerialNumber := 0
    g_productNumberInfo := zeroInfo
    g_macAddress := 0 }

/-! ## Collaborators -/

/-- What `AtmelAtsha204a_EncodeAddress` leaves behind: the world after the
call, its result code, and the value it stored through `&encodedAddress`
(a `uint16_t`). -/
structure EncodeOut (σ : Type) where
  world : σ
  result : EN_RESULT
  encodedAddress : Nat

/-- What `AtmelAtsha204a_Read` leaves behind: the world after the call, its
result code, and the four bytes now in the buffer it was given. -/
structure ReadOut (σ : Type) where
  world : σ
  result : EN_RESULT
  buffer : Buf4

/-- The functions and constants ModuleEeprom.c takes from its headers.
`σ` is the state of everything outside the file (the bus, the device, a
test stub's counters). -/
structure Collaborators (σ : Type) (PNI : Type) where
  /-- The call `AtmelAtsha204a_EncodeAddress(zone, slotIndex, wordOffset, &encodedAddress)`. -/
  AtmelAtsha204a_EncodeAddress : σ → EZoneSelect → Nat → Nat → EncodeOut σ
  /-- The call `AtmelAtsha204a_Read(sizeSelect, zone, encodedAddress, buffer)`. -/
  AtmelAtsha204a_Read : σ → EReadSizeSelect → EZoneSelect → Nat → ReadOut σ
  /-- The call `ParseProductNumber(productNumber)`. -/
  ParseProductNumber : Nat → PNI
  MODULE_INFO_ADDRESS_SERIAL_NUMBER : Nat
  MODULE_INFO_ADDRESS_PRODUCT_NUMBER : Nat
  MODULE_INFO_ADDRESS_MAC_ADDRESS : Nat

/-- Modelled from the spec: `ByteArrayToUnsignedInt32` of UtilityFunctions.h,
not in this file: "interpret the 4 bytes as a big/little-endian (match the
device's native order) unsigned 32-bit integer"; the end-to-end scenario
(`[0x00,0x00,0x00,0x01]` is serial number 1) fixes the order as most
significant byte first. -/
def ByteArrayToUnsignedInt32 (p : Buf4) : Nat :=
  p.b0.val * 2 ^ 24 + p.b1.val * 2 ^ 16 + p.b2.val * 2 ^ 8 + p.b3.val

/-- Modelled from the spec: `ByteArrayToUnsignedInt64` of UtilityFunctions.h,
not in this file: "interpret the 6 significant bytes as an unsigned integer
and store in a 64-bit field (top 16 bits zero)", most significant byte first
(`11 22 33 44 55 66` is `0x112233445566`). -/
def ByteArrayToUnsignedInt64 (p : List uint8_t) : Nat :=
  (p.take 6).foldl (fun acc b => acc * 256 + b.val) 0

/-! ## Functions of ModuleEeprom.c -/

/-- The state after a call and the `EN_RESULT` it returned. -/
structure Outcome (σ : Type) (PNI : Type) where
  world : σ
  globals : Globals PNI
  result : EN_RESULT

/-- The function `EN_RESULT DetermineEepromType()`. -/
def DetermineEepromType {PNI : Type} (g : Globals PNI) : Globals PNI × EN_RESULT :=
  ({ g with g_EepromDeviceType := EEepromDevice_AtmelAtsha204a }, EN_SUCCESS)

/-- The function `EN_RESULT Eeprom_Initialise()`: the result of `DetermineEepromType` is
not looked at. -/
def Eeprom_Initialise {PNI : Type} (g : Globals PNI) : Globals PNI × EN_RESULT :=
  ((DetermineEepromType g).1, EN_SUCCESS)

/-- The two copy loops of `Eeprom_ReadBasicModuleInfo` that fill
`fullMacAddressBuffer[6]` (an uninitialised local, every element of which the
loops overwrite). -/
def fillFullMacAddressBuffer (macAddressBuffer1 macAddressBuffer2 : Buf4) : List uint8_t :=
  let fullMacAddressBuffer : List uint8_t := List.replicate 6 0
  let fullMacAddressBuffer :=
    (List.range' 0 4).foldl
      (fun full byteIndex => full.set byteIndex (macAddressBuffer1.get byteIndex))
      fullMacAddressBuffer
  (List.range' 4 2).foldl
    (fun full byteIndex => full.set byteIndex (macAddressBuffer2.get (byteIndex - 4)))
    fullMacAddressBuffer

/-- The function `EN_RESULT Eeprom_ReadBasicModuleInfo()`. Each word offset is held in a
`uint8_t` (hence `% 256`); `macAddressWordOffset + 1` is computed in `int`. -/
def Eeprom_ReadBasicModuleInfo {σ PNI : Type} (c : Collaborators σ PNI)
    (w : σ) (g : Globals PNI) : Outcome σ PNI :=
  let slotIndex : Nat := 0
  -- Serial number
  let serialNumberWordOffset : Nat := (c.MODULE_INFO_ADDRESS_SERIAL_NUMBER / 4) % 256
  let e1 := c.AtmelAtsha204a_EncodeAddress w EZoneSelect_Otp slotIndex serialNumberWordOffset
  if EN_FAILED e1.result then ⟨e1.world, g, e1.result⟩ else
  let r1 := c.AtmelAtsha204a_Read e1.world EReadSizeSelect_4Bytes EZoneSelect_Otp e1.encodedAddress
  if EN_FAILED r1.result then ⟨r1.world, g, r1.result⟩ else
  let g := { g with g_moduleSerialNumber := ByteArrayToUnsignedInt32 r1.buffer }
  -- Product number
  let productNumberWordOffset : Nat := (c.MODULE_INFO_ADDRESS_PRODUCT_NUMBER / 4) % 256
  let e2 := c.AtmelAtsha204a_EncodeAddress r1.world EZoneSelect_Otp slotIndex productNumberWordOffset
  if EN_FAILED e2.result then ⟨e2.world, g, e2.result⟩ else
  let r2 := c.AtmelAtsha204a_Read e2.world EReadSizeSelect_4Bytes EZoneSelect_Otp e2.encodedAddress
  if EN_FAILED r2.result then ⟨r2.world, g, r2.result⟩ else
  let productNumber := ByteArrayToUnsignedInt32 r2.buffer
  let g := { g with g_productNumberInfo := c.ParseProductNumber productNumber }
  -- MAC address: two 4-byte reads
  let macAddressWordOffset : Nat := (c.MODULE_INFO_ADDRESS_MAC_ADDRESS / 4) % 256
  let e3 := c.AtmelAtsha204a_EncodeAddress r2.world EZoneSelect_Otp slotIndex macAddressWordOffset
  if EN_FAILED e3.result then ⟨e3.world, g, e3.result⟩ else
  let r3 := c.AtmelAtsha204a_Read e3.world EReadSizeSelect_4Bytes EZoneSelect_Otp e3.encodedAddress
  if EN_FAILED r3.result then ⟨r3.world, g, r3.result⟩ else
  let e4 := c.AtmelAtsha204a_EncodeAddress r3.world EZoneSelect_Otp slotIndex (macAddressWordOffset + 1)
  if EN_FAILED e4.result then ⟨e4.world, g, e4.result⟩ else
  let r4 := c.AtmelAtsha204a_Read e4.world EReadSizeSelect_4Bytes EZoneSelect_Otp e4.encodedAddress
  if EN_FAILED r4.result then ⟨r4.world, g, r4.result⟩ else
  let fullMacAddressBuffer := fillFullMacAddressBuffer r3.buffer r4.buffer
  let g := { g with g_macAddress := ByteArrayToUnsignedInt64 fullMacAddressBuffer }
  ⟨r4.world, g, EN_SUCCESS⟩

/-- What `Eeprom_GetModuleInfo` leaves behind. A destination is `none` for a
null pointer and `some v` for a pointer to storage holding `v`. -/
structure GetOut (PNI : Type) where
  result : EN_RESULT
  serialNumber : Option Nat
  productNumberInfo : Option PNI
  macAddress : Option Nat
  globals : Globals PNI

/-- The function `EN_RESULT Eeprom_GetModuleInfo(uint32_t* pSerialNumber,
ProductNumberInfo_t* pProductNumberInfo, uint64_t* pMacAddress)` -/
def Eeprom_GetModuleInfo {PNI : Type} (g : Globals PNI) (pSerialNumber : Option Nat)
    (pProductNumberInfo : Option PNI) (pMacAddress : Option Nat) : GetOut PNI :=
  if pSerialNumber.isNone || pProductNumberInfo.isNone || pMacAddress.isNone then
    ⟨EN_ERROR_NULL_POINTER, pSerialNumber, pProductNumberInfo, pMacAddress, g⟩
  else
    ⟨EN_SUCCESS, some g.g_moduleSerialNumber, some g.g_productNumberInfo, some g.g_macAddress, g⟩

/-- The function `EN_RESULT Eeprom_Read()`. -/
def Eeprom_Read {σ PNI : Type} (c : Collaborators σ PNI) (w : σ) (g : Globals PNI) :
    Outcome σ PNI :=
  let r := Eeprom_ReadBasicModuleInfo c w g
  if EN_FAILED r.result then r else ⟨r.world, r.globals, EN_SUCCESS⟩

/-- One entry point of the module as a boot-orchestration caller sees it. -/
inductive ApiCall (PNI : Type) where
  | Initialise
  | ReadBasicModuleInfo
  | Read
  | GetModuleInfo (pSerialNumber : Option Nat) (pProductNumberInfo : Option PNI)
      (pMacAddress : Option Nat)

/-- Running one exposed operation on the world and the globals. -/
def apiCall {σ PNI : Type} (c : Collaborators σ PNI) (op : ApiCall PNI) (w : σ)
    (g : Globals PNI) : Outcome σ PNI :=
  match op with
  | .Initialise => ⟨w, (Eeprom_Initialise g).1, (Eeprom_Initialise g).2⟩
  | .ReadBasicModuleInfo => Eeprom_ReadBasicModuleInfo c w g
  | .Read => Eeprom_Read c w g
  | .GetModuleInfo p1 p2 p3 =>
      ⟨w, (Eeprom_GetModuleInfo g p1 p2 p3).globals, (Eeprom_GetModuleInfo g p1 p2 p3).result⟩

/-! ## Observing the collaborator calls -/

/-- One call of a bus collaborator, with its arguments and what it gave back. -/
inductive BusEvent where
  | encode (zone : EZoneSelect) (slotIndex wordOffset : Nat) (result : EN_RESULT)
      (encodedAddress : Nat)
  | read (sizeSelect : EReadSizeSelect) (zone : EZoneSelect) (encodedAddress : Nat)
      (result : EN_RESULT) (buffer : Buf4)
  deriving DecidableEq, Repr

/-- The result code the call returned. -/
def BusEvent.result : BusEvent → EN_RESULT
  | .encode _ _ _ r _ => r
  | .read _ _ _ r _ => r

/-- Whether the call is a bus read. -/
def BusEvent.isRead : BusEvent → Bool
  | .encode _ _ _ _ _ => false
  | .read _ _ _ _ _ => true

/-- The buffers the bus reads of a log returned, in call order. -/
def readBuffers : List BusEvent → List Buf4
  | [] => []
  | .encode _ _ _ _ _ :: l => readBuffers l
  | .read _ _ _ _ b :: l => b :: readBuffers l

/-- The word offsets the encode calls of a log were given, in call order. -/
def wordOffsets : List BusEvent → List Nat
  | [] => []
  | .encode _ _ o _ _ :: l => o :: wordOffsets l
  | .read _ _ _ _ _ :: l => wordOffsets l

/-- The number of bus reads in a log. -/
def readCount (l : List BusEvent) : Nat :=
  (l.filter BusEvent.isRead).length

/-- The collaborators `c` with every encode and read call appended to a log
kept next to the world: the stub that records invocations. -/
def traced {σ PNI : Type} (c : Collaborators σ PNI) : Collaborators (σ × List BusEvent) PNI where
  AtmelAtsha204a_EncodeAddress := fun w zone slotIndex wordOffset =>
    let e := c.AtmelAtsha204a_EncodeAddress w.1 zone slotIndex wordOffset
    ⟨(e.world, w.2 ++ [BusEvent.encode zone slotIndex wordOffset e.result e.encodedAddress]),
      e.result, e.encodedAddress⟩
  AtmelAtsha204a_Read := fun w sizeSelect zone encodedAddress =>
    let r := c.AtmelAtsha204a_Read w.1 sizeSelect zone encodedAddress
    ⟨(r.world, w.2 ++ [BusEvent.read sizeSelect zone encodedAddress r.result r.buffer]),
      r.result, r.buffer⟩
  ParseProductNumber := c.ParseProductNumber
  MODULE_INFO_ADDRESS_SERIAL_NUMBER := c.MODULE_INFO_ADDRESS_SERIAL_NUMBER
  MODULE_INFO_ADDRESS_PRODUCT_NUMBER := c.MODULE_INFO_ADDRESS_PRODUCT_NUMBER
  MODULE_INFO_ADDRESS_MAC_ADDRESS := c.MODULE_INFO_ADDRESS_MAC_ADDRESS

/-- The collaborator calls one `Eeprom_ReadBasicModuleInfo` makes, in order. -/
def busLog {σ PNI : Type} (c : Collaborators σ PNI) (w : σ) (g : Globals PNI) : List BusEvent :=
  (Eeprom_ReadBasicModuleInfo (traced c) (w, []) g).world.2

/-! ## A scripted transport stub -/

/-- State of the stub: how many encode and read calls it has seen. -/
structure StubState where
  encodeCalls : Nat
  readCalls : Nat
  deriving DecidableEq, Repr

/-- A transport stub: the n-th read answers with the n-th entry of `script`
(a transport failure past its end), the encoder fails on call number
`encodeFailsAt` (counted from 0) and otherwise answers `8 * slot + offset`;
the product-number decoder splits the raw code in two 16-bit halves. -/
def stub (script : List (EN_RESULT × Buf4)) (encodeFailsAt : Option Nat)
    (serialAddr productAddr macAddr : Nat) : Collaborators StubState (Nat × Nat) where
  AtmelAtsha204a_EncodeAddress := fun w _ slotIndex wordOffset =>
    ⟨{ w with encodeCalls := w.encodeCalls + 1 },
      if encodeFailsAt = some w.encodeCalls then EN_ERROR 7 else EN_SUCCESS,
      8 * slotIndex + wordOffset⟩
  AtmelAtsha204a_Read := fun w _ _ _ =>
    ⟨{ w with readCalls := w.readCalls + 1 },
      (script.getD w.readCalls (EN_ERROR 1, ⟨0, 0, 0, 0⟩)).1,
      (script.getD w.readCalls (EN_ERROR 1, ⟨0, 0, 0, 0⟩)).2⟩
  ParseProductNumber := fun n => (n / 65536, n % 65536)
  MODULE_INFO_ADDRESS_SERIAL_NUMBER := serialAddr
  MODULE_INFO_ADDRESS_PRODUCT_NUMBER := productAddr
  MODULE_INFO_ADDRESS_MAC_ADDRESS := macAddr

/-! ## The eight collaborator calls, named -/

section Steps
variable {σ PNI : Type} (c : Collaborators σ PNI) (w : σ)

/-- Call 1: encode of the serial-number word offset. -/
def serialEncode : EncodeOut σ :=
  c.AtmelAtsha204a_EncodeAddress w EZoneSelect_Otp 0 ((c.MODULE_INFO_ADDRESS_SERIAL_NUMBER / 4) % 256)

/-- Call 2: read of the serial-number word. -/
def serialRead : ReadOut σ :=
  c.AtmelAtsha204a_Read (serialEncode c w).world EReadSizeSelect_4Bytes EZoneSelect_Otp
    (serialEncode c w).encodedAddress

/-- Call 3: encode of the product-number word offset. -/
def productEncode : EncodeOut σ :=
  c.AtmelAtsha204a_EncodeAddress (serialRead c w).world EZoneSelect_Otp 0
    ((c.MODULE_INFO_ADDRESS_PRODUCT_NUMBER / 4) % 256)

/-- Call 4: read of the product-number word. -/
def productRead : ReadOut σ :=
  c.AtmelAtsha204a_Read (productEncode c w).world EReadSizeSelect_4Bytes EZoneSelect_Otp
    (productEncode c w).encodedAddress

/-- Call 5: encode of the MAC word offset. -/
def mac1Encode : EncodeOut σ :=
  c.AtmelAtsha204a_EncodeAddress (productRead c w).world EZoneSelect_Otp 0
    ((c.MODULE_INFO_ADDRESS_MAC_ADDRESS / 4) % 256)

/-- Call 6: read of the first MAC word. -/
def mac1Read : ReadOut σ :=
  c.AtmelAtsha204a_Read (mac1Encode c w).world EReadSizeSelect_4Bytes EZoneSelect_Otp
    (mac1Encode c w).encodedAddress

/-- Call 7: encode of the MAC word offset plus one. -/
def mac2Encode : EncodeOut σ :=
  c.AtmelAtsha204a_EncodeAddress (mac1Read c w).world EZoneSelect_Otp 0
    ((c.MODULE_INFO_ADDRESS_MAC_ADDRESS / 4) % 256 + 1)

/-- Call 8: read of the second MAC word. -/
def mac2Read : ReadOut σ :=
  c.AtmelAtsha204a_Read (mac2Encode c w).world EReadSizeSelect_4Bytes EZoneSelect_Otp
    (mac2Encode c w).encodedAddress

/-- The log entry of an encode call. -/
def encodeEvent (wordOffset : Nat) (e : EncodeOut σ) : BusEvent :=
  BusEvent.encode EZoneSelect_Otp 0 wordOffset e.result e.encodedAddress

/-- The log entry of a read call. -/
def readEvent (encodedAddress : Nat) (r : ReadOut σ) : BusEvent :=
  BusEvent.read EReadSizeSelect_4Bytes EZoneSelect_Otp encodedAddress r.result r.buffer

/-- The log entries of the eight calls, were all of them made. -/
def allEvents : List BusEvent :=
  [ encodeEvent ((c.MODULE_INFO_ADDRESS_SERIAL_NUMBER / 4) % 256) (serialEncode c w),
    readEvent (serialEncode c w).encodedAddress (serialRead c w),
    encodeEvent ((c.MODULE_INFO_ADDRESS_PRODUCT_NUMBER / 4) % 256) (productEncode c w),
    readEvent (productEncode c w).encodedAddress (productRead c w),
    encodeEvent ((c.MODULE_INFO_ADDRESS_MAC_ADDRESS / 4) % 256) (mac1Encode c w),
    readEvent (mac1Encode c w).encodedAddress (mac1Read c w),
    encodeEvent ((c.MODULE_INFO_ADDRESS_MAC_ADDRESS / 4) % 256 + 1) (mac2Encode c w),
    readEvent (mac2Encode c w).encodedAddress (mac2Read c w) ]

/-- How many of the eight calls are made: up to and including the first that
fails, all eight when none does. -/
def stepsDone : Nat :=
  if EN_FAILED (serialEncode c w).result then 1
  else if EN_FAILED (serialRead c w).result then 2
  else if EN_FAILED (productEncode c w).result then 3
  else if EN_FAILED (productRead c w).result then 4
  else if EN_FAILED (mac1Encode c w).result then 5
  else if EN_FAILED (mac1Read c w).result then 6
  else if EN_FAILED (mac2Encode c w).result then 7
  else 8

end Steps

/-- Position in a log (counted from 0) of the first call that failed. -/
def firstFailure : List BusEvent → Option Nat
  | [] => none
  | e :: l => if EN_FAILED e.result then some 0 else (firstFailure l).map (· + 1)

/-- Four successful reads by the stub: serial number 1, product number 42,
MAC halves `AA BB CC DD` and `EE FF 00 00`. -/
def scenarioScript : List (EN_RESULT × Buf4) :=
  [ (EN_SUCCESS, ⟨0x00, 0x00, 0x00, 0x01⟩), (EN_SUCCESS, ⟨0x00, 0x00, 0x00, 0x2A⟩),
    (EN_SUCCESS, ⟨0xAA, 0xBB, 0xCC, 0xDD⟩), (EN_SUCCESS, ⟨0xEE, 0xFF, 0x00, 0x00⟩) ]

/-- Four successful reads by the stub with MAC halves `11 22 33 44` and
`55 66 77 88`. -/
def macScript : List (EN_RESULT × Buf4) :=
  [ (EN_SUCCESS, ⟨0x00, 0x00, 0x00, 0x01⟩), (EN_SUCCESS, ⟨0x00, 0x00, 0x00, 0x2A⟩),
    (EN_SUCCESS, ⟨0x11, 0x22, 0x33, 0x44⟩), (EN_SUCCESS, ⟨0x55, 0x66, 0x77, 0x88⟩) ]

/-- A script whose third read fails with transport error 9. -/
def failingScript : List (EN_RESULT × Buf4) :=
  [ (EN_SUCCESS, ⟨0x00, 0x00, 0x00, 0x01⟩), (EN_SUCCESS, ⟨0x00, 0x00, 0x00, 0x2A⟩),
    (EN_ERROR 9, ⟨0x00, 0x00, 0x00, 0x00⟩), (EN_SUCCESS, ⟨0xEE, 0xFF, 0x00, 0x00⟩) ]

/-- Eight reads: the scenario twice over, the second time with serial number 2. -/
def rereadScript : List (EN_RESULT × Buf4) :=
  scenarioScript ++
  [ (EN_SUCCESS, ⟨0x00, 0x00, 0x00, 0x02⟩), (EN_SUCCESS, ⟨0x00, 0x00, 0x00, 0x2A⟩),
    (EN_SUCCESS, ⟨0xAA, 0xBB, 0xCC, 0xDD⟩), (EN_SUCCESS, ⟨0xEE, 0xFF, 0x00, 0x00⟩) ]

/-- The stub before any call. -/
def stubStart : StubState := ⟨0, 0⟩

/-- The stub's world and the globals after one read pass on `rereadScript`
from the zero-initialised globals. -/
def afterFirstRead : Outcome StubState (Nat × Nat) :=
  Eeprom_ReadBasicModuleInfo (stub rereadScript none 0 4 16) stubStart (initialGlobals (0, 0))

/-! ## Lemmas on the model -/

/-- A step has failed exactly when its code is not success. -/
theorem EN_FAILED_iff (r : EN_RESULT) : EN_FAILED r = true ↔ r ≠ EN_SUCCESS := by
  simp [EN_FAILED]

/-- The copy loops leave the four bytes of the first buffer followed by the
first two of the second. -/
theorem fillFullMacAddressBuffer_eq (a b : Buf4) :
    fillFullMacAddressBuffer a b = [a.b0, a.b1, a.b2, a.b3, b.b0, b.b1] := rfl

/-- The value of a six-byte array, most significant byte first. -/
theorem ByteArrayToUnsignedInt64_six (x0 x1 x2 x3 x4 x5 : uint8_t) :
    ByteArrayToUnsignedInt64 [x0, x1, x2, x3, x4, x5]
      = x0.val * 2 ^ 40 + x1.val * 2 ^ 32 + x2.val * 2 ^ 24 + x3.val * 2 ^ 16
        + x4.val * 2 ^ 8 + x5.val := by
  simp only [ByteArrayToUnsignedInt64, List.take, List.foldl]
  ring

/-- The MAC value assembled from two read buffers. -/
theorem mac_value (a b : Buf4) :
    ByteArrayToUnsignedInt64 (fillFullMacAddressBuffer a b)
      = a.b0.val * 2 ^ 40 + a.b1.val * 2 ^ 32 + a.b2.val * 2 ^ 24 + a.b3.val * 2 ^ 16
        + b.b0.val * 2 ^ 8 + b.b1.val := by
  rw [fillFullMacAddressBuffer_eq, ByteArrayToUnsignedInt64_six]

/-- The assembled MAC value fits 48 bits. -/
theorem mac_lt (a b : Buf4) :
    ByteArrayToUnsignedInt64 (fillFullMacAddressBuffer a b) < 2 ^ 48 := by
  rw [mac_value]
  have := a.b0.isLt; have := a.b1.isLt; have := a.b2.isLt; have := a.b3.isLt
  have := b.b0.isLt; have := b.b1.isLt
  omega

section
variable {σ PNI : Type} (c : Collaborators σ PNI) (w : σ) (l : List BusEvent) (g : Globals PNI)

/-- The function `Eeprom_ReadBasicModuleInfo` written over the eight named calls. -/
theorem run_eq :
    Eeprom_ReadBasicModuleInfo c w g =
      if EN_FAILED (serialEncode c w).result then ⟨(serialEncode c w).world, g, (serialEncode c w).result⟩
      else if EN_FAILED (serialRead c w).result then ⟨(serialRead c w).world, g, (serialRead c w).result⟩
      else if EN_FAILED (productEncode c w).result then
        ⟨(productEncode c w).world,
          { g with g_moduleSerialNumber := ByteArrayToUnsignedInt32 (serialRead c w).buffer },
          (productEncode c w).result⟩
      else if EN_FAILED (productRead c w).result then
        ⟨(productRead c w).world,
          { g with g_moduleSerialNumber := ByteArrayToUnsignedInt32 (serialRead c w).buffer },
          (productRead c w).result⟩
      else if EN_FAILED (mac1Encode c w).result then
        ⟨(mac1Encode c w).world,
          { g with
            g_moduleSerialNumber := ByteArrayToUnsignedInt32 (serialRead c w).buffer
            g_productNumberInfo :=
              c.ParseProductNumber (ByteArrayToUnsignedInt32 (productRead c w).buffer) },
          (mac1Encode c w).result⟩
      else if EN_FAILED (mac1Read c w).result then
        ⟨(mac1Read c w).world,
          { g with
            g_moduleSerialNumber := ByteArrayToUnsignedInt32 (serialRead c w).buffer
            g_productNumberInfo :=
              c.ParseProductNumber (ByteArrayToUnsignedInt32 (productRead c w).buffer) },
          (mac1Read c w).result⟩
      else if EN_FAILED (mac2Encode c w).result then
        ⟨(mac2Encode c w).world,
          { g with
            g_moduleSerialNumber := ByteArrayToUnsignedInt32 (serialRead c w).buffer
            g_productNumberInfo :=
              c.ParseProductNumber (ByteArrayToUnsignedInt32 (productRead c w).buffer) },
          (mac2Encode c w).result⟩
      else if EN_FAILED (mac2Read c w).result then
        ⟨(mac2Read c w).world,
          { g with
            g_moduleSerialNumber := ByteArrayToUnsignedInt32 (serialRead c w).buffer
            g_productNumberInfo :=
              c.ParseProductNumber (ByteArrayToUnsignedInt32 (productRead c w).buffer) },
          (mac2Read c w).result⟩
      else
        ⟨(mac2Read c w).world,
          { g with
            g_moduleSerialNumber := ByteArrayToUnsignedInt32 (serialRead c w).buffer
            g_productNumberInfo :=
              c.ParseProductNumber (ByteArrayToUnsignedInt32 (productRead c w).buffer)
            g_macAddress :=
              ByteArrayToUnsignedInt64
                (fillFullMacAddressBuffer (mac1Read c w).buffer (mac2Read c w).buffer) },
          EN_SUCCESS⟩ := rfl

/-- Under tracing, each named call returns what it returns untraced, and the
log has grown by the calls made so far (this lemma and the seven after it). -/
theorem traced_serialEncode :
    serialEncode (traced c) (w, l) =
      ⟨((serialEncode c w).world,
          l ++ (allEvents c w).take 1), (serialEncode c w).result, (serialEncode c w).encodedAddress⟩ := rfl

theorem traced_serialRead :
    serialRead (traced c) (w, l) =
      ⟨((serialRead c w).world, l ++ (allEvents c w).take 2), (serialRead c w).result, (serialRead c w).buffer⟩ := by
  have h := traced_serialEncode c w l
  unfold serialRead
  rw [h]
  simp [traced, allEvents, encodeEvent, readEvent]
  exact ⟨rfl, rfl⟩

theorem traced_productEncode :
    productEncode (traced c) (w, l) =
      ⟨((productEncode c w).world, l ++ (allEvents c w).take 3), (productEncode c w).result, (productEncode c w).encodedAddress⟩ := by
  have h := traced_serialRead c w l
  unfold productEncode
  rw [h]
  simp [traced, allEvents, encodeEvent, readEvent]
  exact ⟨rfl, rfl⟩

theorem traced_productRead :
    productRead (traced c) (w, l) =
      ⟨((productRead c w).world, l ++ (allEvents c w).take 4), (productRead c w).result, (productRead c w).buffer⟩ := by
  have h := traced_productEncode c w l
  unfold productRead
  rw [h]
  simp [traced, allEvents, encodeEvent, readEvent]
  exact ⟨rfl, rfl⟩

theorem traced_mac1Encode :
    mac1Encode (traced c) (w, l) =
      ⟨((mac1Encode c w).world, l ++ (allEvents c w).take 5), (mac1Encode c w).result, (mac1Encode c w).encodedAddress⟩ := by
  have h := traced_productRead c w l
  unfold mac1Encode
  rw [h]
  simp [traced, allEvents, encodeEvent, readEvent]
  exact ⟨rfl, rfl⟩

theorem traced_mac1Read :
    mac1Read (traced c) (w, l) =
      ⟨((mac1Read c w).world, l ++ (allEvents c w).take 6), (mac1Read c w).result, (mac1Read c w).buffer⟩ := by
  have h := traced_mac1Encode c w l
  unfold mac1Read
  rw [h]
  simp [traced, allEvents, encodeEvent, readEvent]
  exact ⟨rfl, rfl⟩

theorem traced_mac2Encode :
    mac2Encode (traced c) (w, l) =
      ⟨((mac2Encode c w).world, l ++ (allEvents c w).take 7), (mac2Encode c w).result, (mac2Encode c w).encodedAddress⟩ := by
  have h := traced_mac1Read c w l
  unfold mac2Encode
  rw [h]
  simp [traced, allEvents, encodeEvent, readEvent]
  exact ⟨rfl, rfl⟩

theorem traced_mac2Read :
    mac2Read (traced c) (w, l) =
      ⟨((mac2Read c w).world, l ++ (allEvents c w).take 8), (mac2Read c w).result, (mac2Read c w).buffer⟩ := by
  have h := traced_mac2Encode c w l
  unfold mac2Read
  rw [h]
  simp [traced, allEvents, encodeEvent, readEvent]
  exact ⟨rfl, rfl⟩

/-- The call log is the first `stepsDone` of the eight possible entries. -/
theorem busLog_eq : busLog c w g = (allEvents c w).take (stepsDone c w) := by
  unfold busLog
  rw [run_eq (traced c) (w, [])]
  simp only [traced_serialEncode, traced_serialRead, traced_productEncode, traced_productRead,
    traced_mac1Encode, traced_mac1Read, traced_mac2Encode, traced_mac2Read]
  unfold stepsDone
  split_ifs <;> simp [allEvents]

/-- The nine ways a run can go: the k-th call is the first to fail (k = 1..8),
or none fails; each with the outcome and the call log. -/
theorem run_cases :
      ((serialEncode c w).result ≠ EN_SUCCESS ∧
        Eeprom_ReadBasicModuleInfo c w g =
          ⟨(serialEncode c w).world, g,
            (serialEncode c w).result⟩ ∧
        busLog c w g = (allEvents c w).take 1) ∨
      ((serialEncode c w).result = EN_SUCCESS ∧
        (serialRead c w).result ≠ EN_SUCCESS ∧
        Eeprom_ReadBasicModuleInfo c w g =
          ⟨(serialRead c w).world, g,
            (serialRead c w).result⟩ ∧
        busLog c w g = (allEvents c w).take 2) ∨
      ((serialEncode c w).result = EN_SUCCESS ∧
        (serialRead c w).result = EN_SUCCESS ∧
        (productEncode c w).result ≠ EN_SUCCESS ∧
        Eeprom_ReadBasicModuleInfo c w g =
          ⟨(productEncode c w).world, { g with g_moduleSerialNumber := ByteArrayToUnsignedInt32 (serialRead c w).buffer },
            (productEncode c w).result⟩ ∧
        busLog c w g = (allEvents c w).take 3) ∨
      ((serialEncode c w).result = EN_SUCCESS ∧
        (serialRead c w).result = EN_SUCCESS ∧
        (productEncode c w).result = EN_SUCCESS ∧
        (productRead c w).result ≠ EN_SUCCESS ∧
        Eeprom_ReadBasicModuleInfo c w g =
          ⟨(productRead c w).world, { g with g_moduleSerialNumber := ByteArrayToUnsignedInt32 (serialRead c w).buffer },
            (productRead c w).result⟩ ∧
        busLog c w g = (allEvents c w).take 4) ∨
      ((serialEncode c w).result = EN_SUCCESS ∧
        (serialRead c w).result = EN_SUCCESS ∧
        (productEncode c w).result = EN_SUCCESS ∧
        (productRead c w).result = EN_SUCCESS ∧
        (mac1Encode c w).result ≠ EN_SUCCESS ∧
        Eeprom_ReadBasicModuleInfo c w g =
          ⟨(mac1Encode c w).world, { g with
            g_moduleSerialNumber := ByteArrayToUnsignedInt32 (serialRead c w).buffer
            g_productNumberInfo :=
              c.ParseProductNumber (ByteArrayToUnsignedInt32 (productRead c w).buffer) },
            (mac1Encode c w).result⟩ ∧
        busLog c w g = (allEvents c w).take 5) ∨
      ((serialEncode c w).result = EN_SUCCESS ∧
        (serialRead c w).result = EN_SUCCESS ∧
        (productEncode c w).result = EN_SUCCESS ∧
        (productRead c w).result = EN_SUCCESS ∧
        (mac1Encode c w).result = EN_SUCCESS ∧
        (mac1Read c w).result ≠ EN_SUCCESS ∧
        Eeprom_ReadBasicModuleInfo c w g =
          ⟨(mac1Read c w).world, { g with
            g_moduleSerialNumber := ByteArrayToUnsignedInt32 (serialRead c w).buffer
            g_productNumberInfo :=
              c.ParseProductNumber (ByteArrayToUnsignedInt32 (productRead c w).buffer) },
            (mac1Read c w).result⟩ ∧
        busLog c w g = (allEvents c w).take 6) ∨
      ((serialEncode c w).result = EN_SUCCESS ∧
        (serialRead c w).result = EN_SUCCESS ∧
        (productEncode c w).result = EN_SUCCESS ∧
        (productRead c w).result = EN_SUCCESS ∧
        (mac1Encode c w).result = EN_SUCCESS ∧
        (mac1Read c w).result = EN_SUCCESS ∧
        (mac2Encode c w).result ≠ EN_SUCCESS ∧
        Eeprom_ReadBasicModuleInfo c w g =
          ⟨(mac2Encode c w).world, { g with
            g_moduleSerialNumber := ByteArrayToUnsignedInt32 (serialRead c w).buffer
            g_productNumberInfo :=
              c.ParseProductNumber (ByteArrayToUnsignedInt32 (productRead c w).buffer) },
            (mac2Encode c w).result⟩ ∧
        busLog c w g = (allEvents c w).take 7) ∨
      ((serialEncode c w).result = EN_SUCCESS ∧
        (serialRead c w).result = EN_SUCCESS ∧
        (productEncode c w).result = EN_SUCCESS ∧
        (productRead c w).result = EN_SUCCESS ∧
        (mac1Encode c w).result = EN_SUCCESS ∧
        (mac1Read c w).result = EN_SUCCESS ∧
        (mac2Encode c w).result = EN_SUCCESS ∧
        (mac2Read c w).result ≠ EN_SUCCESS ∧
        Eeprom_ReadBasicModuleInfo c w g =
          ⟨(mac2Read c w).world, { g with
            g_moduleSerialNumber := ByteArrayToUnsignedInt32 (serialRead c w).buffer
            g_productNumberInfo :=
              c.ParseProductNumber (ByteArrayToUnsignedInt32 (productRead c w).buffer) },
            (mac2Read c w).result⟩ ∧
        busLog c w g = (allEvents c w).take 8) ∨
      ((serialEncode c w).result = EN_SUCCESS ∧
        (serialRead c w).result = EN_SUCCESS ∧
        (productEncode c w).result = EN_SUCCESS ∧
        (productRead c w).result = EN_SUCCESS ∧
        (mac1Encode c w).result = EN_SUCCESS ∧
        (mac1Read c w).result = EN_SUCCESS ∧
        (mac2Encode c w).result = EN_SUCCESS ∧
        (mac2Read c w).result = EN_SUCCESS ∧
        Eeprom_ReadBasicModuleInfo c w g =
          ⟨(mac2Read c w).world, { g with
            g_moduleSerialNumber := ByteArrayToUnsignedInt32 (serialRead c w).buffer
            g_productNumberInfo :=
              c.ParseProductNumber (ByteArrayToUnsignedInt32 (productRead c w).buffer)
            g_macAddress :=
              ByteArrayToUnsignedInt64
                (fillFullMacAddressBuffer (mac1Read c w).buffer (mac2Read c w).buffer) },
            EN_SUCCESS⟩ ∧
        busLog c w g = allEvents c w) := by
  rw [busLog_eq, run_eq]
  unfold stepsDone
  by_cases h0 : EN_FAILED (serialEncode c w).result = true
  · rw [if_pos h0, if_pos h0]
    rw [EN_FAILED_iff] at h0
    left
    exact ⟨h0, rfl, rfl⟩
  rw [if_neg h0, if_neg h0]
  rw [EN_FAILED_iff, not_not] at h0
  by_cases h1 : EN_FAILED (serialRead c w).result = true
  · rw [if_pos h1, if_pos h1]
    rw [EN_FAILED_iff] at h1
    right; left
    exact ⟨h0, h1, rfl, rfl⟩
  rw [if_neg h1, if_neg h1]
  rw [EN_FAILED_iff, not_not] at h1
  by_cases h2 : EN_FAILED (productEncode c w).result = true
  · rw [if_pos h2, if_pos h2]
    rw [EN_FAILED_iff] at h2
    right; right; left
    exact ⟨h0, h1, h2, rfl, rfl⟩
  rw [if_neg h2, if_neg h2]
  rw [EN_FAILED_iff, not_not] at h2
  by_cases h3 : EN_FAILED (productRead c w).result = true
  · rw [if_pos h3, if_pos h3]
    rw [EN_FAILED_iff] at h3
    right; right; right; left
    exact ⟨h0, h1, h2, h3, rfl, rfl⟩
  rw [if_neg h3, if_neg h3]
  rw [EN_FAILED_iff, not_not] at h3
  by_cases h4 : EN_FAILED (mac1Encode c w).result = true
  · rw [if_pos h4, if_pos h4]
    rw [EN_FAILED_iff] at h4
    right; right; right; right; left
    exact ⟨h0, h1, h2, h3, h4, rfl, rfl⟩
  rw [if_neg h4, if_neg h4]
  rw [EN_FAILED_iff, not_not] at h4
  by_cases h5 : EN_FAILED (mac1Read c w).result = true
  · rw [if_pos h5, if_pos h5]
    rw [EN_FAILED_iff] at h5
    right; right; right; right; right; left
    exact ⟨h0, h1, h2, h3, h4, h5, rfl, rfl⟩
  rw [if_neg h5, if_neg h5]
  rw [EN_FAILED_iff, not_not] at h5
  by_cases h6 : EN_FAILED (mac2Encode c w).result = true
  · rw [if_pos h6, if_pos h6]
    rw [EN_FAILED_iff] at h6
    right; right; right; right; right; right; left
    exact ⟨h0, h1, h2, h3, h4, h5, h6, rfl, rfl⟩
  rw [if_neg h6, if_neg h6]
  rw [EN_FAILED_iff, not_not] at h6
  by_cases h7 : EN_FAILED (mac2Read c w).result = true
  · rw [if_pos h7]
    rw [EN_FAILED_iff] at h7
    right; right; right; right; right; right; right; left
    exact ⟨h0, h1, h2, h3, h4, h5, h6, h7, rfl, rfl⟩
  rw [if_neg h7]
  rw [EN_FAILED_iff, not_not] at h7
  right; right; right; right; right; right; right; right
  exact ⟨h0, h1, h2, h3, h4, h5, h6, h7, rfl, rfl⟩

end

/-- In a log whose entries all succeeded except possibly the last, a failed
entry is the last one. -/
theorem all_ok_of_failfast (init : List BusEvent) (last : BusEvent)
    (hinit : ∀ e ∈ init, e.result = EN_SUCCESS) (pre post : List BusEvent) (ev : BusEvent)
    (h : init ++ [last] = pre ++ ev :: post) (hev : ev.result ≠ EN_SUCCESS) :
    post = [] ∧ ev = last ∧ pre = init := by
  induction init generalizing pre with
  | nil =>
    cases pre with
    | nil => simp at h; simp [h.1, h.2]
    | cons a pre => simp at h
  | cons a init ih =>
    cases pre with
    | nil =>
      simp at h
      exact absurd (hinit a (by simp) ▸ h.1 ▸ rfl) hev
    | cons b pre =>
      simp at h
      have := ih (fun e he => hinit e (by simp [he])) pre h.2
      simp [this, h.1]

/-- C1. In a successful `Eeprom_ReadBasicModuleInfo` whose four bus reads return
`s`, `p`, `h1`, `h2`, the stored MAC address is the integer with bytes
`h1[0] h1[1] h1[2] h1[3] h2[0] h2[1]`, most significant first; it is below
`2^48`, and replacing `h2[2]`, `h2[3]` by any bytes gives the same value. -/
theorem mac_address_assembly {σ PNI : Type} (c : Collaborators σ PNI) (w : σ) (g : Globals PNI)
    (s p h1 h2 : Buf4)
    (hok : (Eeprom_ReadBasicModuleInfo c w g).result = EN_SUCCESS)
    (hreads : readBuffers (busLog c w g) = [s, p, h1, h2]) :
    (Eeprom_ReadBasicModuleInfo c w g).globals.g_macAddress
        = h1.b0.val * 2 ^ 40 + h1.b1.val * 2 ^ 32 + h1.b2.val * 2 ^ 24 + h1.b3.val * 2 ^ 16
          + h2.b0.val * 2 ^ 8 + h2.b1.val
      ∧ (Eeprom_ReadBasicModuleInfo c w g).globals.g_macAddress < 2 ^ 48
      ∧ ∀ x y : uint8_t,
          ByteArrayToUnsignedInt64 (fillFullMacAddressBuffer h1 ⟨h2.b0, h2.b1, x, y⟩)
            = (Eeprom_ReadBasicModuleInfo c w g).globals.g_macAddress := by
  rcases run_cases c w g with h | h | h | h | h | h | h | h | h <;>
    simp_all [readBuffers, allEvents, encodeEvent, readEvent]
  obtain ⟨-, -, h3, h4⟩ := hreads
  subst h3 h4
  refine ⟨mac_value _ _, mac_lt _ _, fun x y => ?_⟩
  rw [mac_value, mac_value]

/-- C1 at the spec's input: halves `11 22 33 44` and `55 66 77 88` give
`0x112233445566`. -/
theorem mac_address_assembly_witness :
    (Eeprom_ReadBasicModuleInfo (stub macScript none 0 4 16) stubStart
        (initialGlobals (0, 0))).result = EN_SUCCESS
      ∧ readBuffers (busLog (stub macScript none 0 4 16) stubStart (initialGlobals (0, 0)))
        = [⟨0x00, 0x00, 0x00, 0x01⟩, ⟨0x00, 0x00, 0x00, 0x2A⟩, ⟨0x11, 0x22, 0x33, 0x44⟩,
            ⟨0x55, 0x66, 0x77, 0x88⟩]
      ∧ (Eeprom_ReadBasicModuleInfo (stub macScript none 0 4 16) stubStart
        (initialGlobals (0, 0))).globals.g_macAddress = 0x112233445566 :=
  ⟨by decide, by decide,
    (mac_address_assembly (stub macScript none 0 4 16) stubStart (initialGlobals (0, 0))
      ⟨0x00, 0x00, 0x00, 0x01⟩ ⟨0x00, 0x00, 0x00, 0x2A⟩ ⟨0x11, 0x22, 0x33, 0x44⟩
      ⟨0x55, 0x66, 0x77, 0x88⟩ (by decide) (by decide)).1⟩


/-- C2. When every encode and read step of `Eeprom_ReadBasicModuleInfo` succeeds,
the first read returning `s` and the second `p`, the call returns success,
`serialNumber` is the 32-bit integer decoded from `s` and `productNumberInfo` is
the decoder applied to the 32-bit integer decoded from `p`. -/
theorem read_success_serial_product {σ PNI : Type} (c : Collaborators σ PNI) (w : σ)
    (g : Globals PNI) (s p : Buf4) (rest : List Buf4)
    (hsteps : ∀ ev ∈ busLog c w g, ev.result = EN_SUCCESS)
    (hreads : readBuffers (busLog c w g) = s :: p :: rest) :
    (Eeprom_ReadBasicModuleInfo c w g).result = EN_SUCCESS
      ∧ (Eeprom_ReadBasicModuleInfo c w g).globals.g_moduleSerialNumber
          = ByteArrayToUnsignedInt32 s
      ∧ (Eeprom_ReadBasicModuleInfo c w g).globals.g_productNumberInfo
          = c.ParseProductNumber (ByteArrayToUnsignedInt32 p) := by
  rcases run_cases c w g with h | h | h | h | h | h | h | h | h <;>
    simp_all [readBuffers, allEvents, encodeEvent, readEvent, BusEvent.result]

/-- C2 on the end-to-end scenario: serial read `00 00 00 01`, product read
`00 00 00 2A`, MAC reads `AA BB CC DD` and `EE FF 00 00`. -/
theorem read_success_serial_product_witness :
    (Eeprom_ReadBasicModuleInfo (stub scenarioScript none 0 4 16) stubStart
        (initialGlobals (0, 0))).result = EN_SUCCESS
      ∧ (Eeprom_ReadBasicModuleInfo (stub scenarioScript none 0 4 16) stubStart
          (initialGlobals (0, 0))).globals.g_moduleSerialNumber = 1
      ∧ (Eeprom_ReadBasicModuleInfo (stub scenarioScript none 0 4 16) stubStart
          (initialGlobals (0, 0))).globals.g_productNumberInfo
          = (stub scenarioScript none 0 4 16).ParseProductNumber 42
      ∧ (Eeprom_ReadBasicModuleInfo (stub scenarioScript none 0 4 16) stubStart
          (initialGlobals (0, 0))).globals.g_macAddress = 0xAABBCCDDEEFF :=
  have h := read_success_serial_product (stub scenarioScript none 0 4 16) stubStart
    (initialGlobals (0, 0)) ⟨0x00, 0x00, 0x00, 0x01⟩ ⟨0x00, 0x00, 0x00, 0x2A⟩
    [⟨0xAA, 0xBB, 0xCC, 0xDD⟩, ⟨0xEE, 0xFF, 0x00, 0x00⟩] (by decide) (by decide)
  ⟨h.1, h.2.1, h.2.2, by decide⟩

/-- C3. `Eeprom_ReadBasicModuleInfo` is fail-fast: a failed call in its log is
the last call made, its code is the code returned, and the number of bus reads
made is the number made up to and including that call (so a failing N-th read
leaves exactly N read invocations). -/
theorem read_fail_fast {σ PNI : Type} (c : Collaborators σ PNI) (w : σ) (g : Globals PNI)
    (pre post : List BusEvent) (ev : BusEvent)
    (hlog : busLog c w g = pre ++ ev :: post) (hev : ev.result ≠ EN_SUCCESS) :
    post = []
      ∧ (Eeprom_ReadBasicModuleInfo c w g).result = ev.result
      ∧ readCount (busLog c w g) = readCount pre + (if ev.isRead then 1 else 0) := by
  have key : ∀ (init : List BusEvent) (last : BusEvent),
      (∀ e ∈ init, e.result = EN_SUCCESS) → busLog c w g = init ++ [last] →
      (Eeprom_ReadBasicModuleInfo c w g).result = last.result →
      post = []
        ∧ (Eeprom_ReadBasicModuleInfo c w g).result = ev.result
        ∧ readCount (busLog c w g) = readCount pre + (if ev.isRead then 1 else 0) := by
    intro init last hinit hl hr
    obtain ⟨h1, h2, h3⟩ := all_ok_of_failfast init last hinit pre post ev (hl ▸ hlog) hev
    subst h1 h2 h3
    refine ⟨rfl, hr, ?_⟩
    rw [hl]
    simp [readCount, List.filter_append, List.filter_cons]
    split <;> simp
  rcases run_cases c w g with h | h | h | h | h | h | h | h | h
  · exact key [] _ (by simp) (by rw [h.2.2]; rfl) (by rw [h.2.1]; rfl)
  · exact key ((allEvents c w).take 1) _
      (by simp [allEvents, encodeEvent, readEvent, BusEvent.result, h])
      (by rw [h.2.2.2]; rfl) (by rw [h.2.2.1]; rfl)
  · exact key ((allEvents c w).take 2) _
      (by simp [allEvents, encodeEvent, readEvent, BusEvent.result, h])
      (by rw [h.2.2.2.2]; rfl) (by rw [h.2.2.2.1]; rfl)
  · exact key ((allEvents c w).take 3) _
      (by simp [allEvents, encodeEvent, readEvent, BusEvent.result, h])
      (by rw [h.2.2.2.2.2]; rfl) (by rw [h.2.2.2.2.1]; rfl)
  · exact key ((allEvents c w).take 4) _
      (by simp [allEvents, encodeEvent, readEvent, BusEvent.result, h])
      (by rw [h.2.2.2.2.2.2]; rfl) (by rw [h.2.2.2.2.2.1]; rfl)
  · exact key ((allEvents c w).take 5) _
      (by simp [allEvents, encodeEvent, readEvent, BusEvent.result, h])
      (by rw [h.2.2.2.2.2.2.2]; rfl) (by rw [h.2.2.2.2.2.2.1]; rfl)
  · exact key ((allEvents c w).take 6) _
      (by simp [allEvents, encodeEvent, readEvent, BusEvent.result, h])
      (by rw [h.2.2.2.2.2.2.2.2]; rfl) (by rw [h.2.2.2.2.2.2.2.1]; rfl)
  · exact key ((allEvents c w).take 7) _
      (by simp [allEvents, encodeEvent, readEvent, BusEvent.result, h])
      (by rw [h.2.2.2.2.2.2.2.2.2]; rfl) (by rw [h.2.2.2.2.2.2.2.2.1]; rfl)
  · exfalso
    have hall : ∀ e ∈ busLog c w g, e.result = EN_SUCCESS := by
      rw [h.2.2.2.2.2.2.2.2.2]
      simp [allEvents, encodeEvent, readEvent, BusEvent.result, h]
    exact hev (hall ev (by rw [hlog]; simp))


/-- C3 on a stub whose third read fails with code 9: the call returns code 9
and the stub has seen exactly three reads. -/
theorem read_fail_fast_witness :
    (Eeprom_ReadBasicModuleInfo (stub failingScript none 0 4 16) stubStart
        (initialGlobals (0, 0))).result = EN_ERROR 9
      ∧ readCount (busLog (stub failingScript none 0 4 16) stubStart (initialGlobals (0, 0))) = 3
      ∧ (Eeprom_ReadBasicModuleInfo (stub failingScript none 0 4 16) stubStart
        (initialGlobals (0, 0))).world.readCalls = 3 :=
  have h := read_fail_fast (stub failingScript none 0 4 16) stubStart (initialGlobals (0, 0))
    ((busLog (stub failingScript none 0 4 16) stubStart (initialGlobals (0, 0))).take 5) []
    (BusEvent.read EReadSizeSelect_4Bytes EZoneSelect_Otp 4 (EN_ERROR 9) ⟨0, 0, 0, 0⟩)
    (by decide) (by decide)
  ⟨h.2.1, h.2.2.trans (by decide), by decide⟩

/-- C4. With at least one null destination `Eeprom_GetModuleInfo` returns the
null-pointer error, leaves every destination as it was and leaves the globals
unchanged. -/
theorem get_null_pointer {PNI : Type} (g : Globals PNI) (pSerialNumber : Option Nat)
    (pProductNumberInfo : Option PNI) (pMacAddress : Option Nat)
    (hnull : pSerialNumber = none ∨ pProductNumberInfo = none ∨ pMacAddress = none) :
    (Eeprom_GetModuleInfo g pSerialNumber pProductNumberInfo pMacAddress).result
        = EN_ERROR_NULL_POINTER
      ∧ (Eeprom_GetModuleInfo g pSerialNumber pProductNumberInfo pMacAddress).serialNumber
        = pSerialNumber
      ∧ (Eeprom_GetModuleInfo g pSerialNumber pProductNumberInfo pMacAddress).productNumberInfo
        = pProductNumberInfo
      ∧ (Eeprom_GetModuleInfo g pSerialNumber pProductNumberInfo pMacAddress).macAddress
        = pMacAddress
      ∧ (Eeprom_GetModuleInfo g pSerialNumber pProductNumberInfo pMacAddress).globals = g := by
  have hc : (pSerialNumber.isNone || pProductNumberInfo.isNone || pMacAddress.isNone) = true := by
    rcases hnull with h | h | h <;> simp [h]
  simp [Eeprom_GetModuleInfo, hc]

/-- C4 with a null product-info destination after a successful read: the serial
and MAC destinations keep their old contents 5 and 7. -/
theorem get_null_pointer_witness :
    (Eeprom_GetModuleInfo
        (Eeprom_ReadBasicModuleInfo (stub scenarioScript none 0 4 16) stubStart
          (initialGlobals (0, 0))).globals (some 5) none (some 7)).result = EN_ERROR_NULL_POINTER
      ∧ (Eeprom_GetModuleInfo
        (Eeprom_ReadBasicModuleInfo (stub scenarioScript none 0 4 16) stubStart
          (initialGlobals (0, 0))).globals (some 5) none (some 7)).serialNumber = some 5
      ∧ (Eeprom_GetModuleInfo
        (Eeprom_ReadBasicModuleInfo (stub scenarioScript none 0 4 16) stubStart
          (initialGlobals (0, 0))).globals (some 5) none (some 7)).macAddress = some 7 :=
  have h := get_null_pointer
    (Eeprom_ReadBasicModuleInfo (stub scenarioScript none 0 4 16) stubStart
      (initialGlobals (0, 0))).globals (some 5) none (some 7) (Or.inr (Or.inl rfl))
  ⟨h.1, h.2.1, h.2.2.2.1⟩

/-- C5. With three valid destinations `Eeprom_GetModuleInfo` returns success,
sets them to the stored serial number, product-number info and MAC address,
whatever they held, and leaves the globals unchanged; on the zero-initialised
globals the outputs are 0, the zeroed info and 0. -/
theorem get_returns_stored {PNI : Type} (g : Globals PNI) (oldSerial : Nat) (oldInfo : PNI)
    (oldMac : Nat) (zeroInfo : PNI) :
    ((Eeprom_GetModuleInfo g (some oldSerial) (some oldInfo) (some oldMac)).result = EN_SUCCESS
      ∧ (Eeprom_GetModuleInfo g (some oldSerial) (some oldInfo) (some oldMac)).serialNumber
        = some g.g_moduleSerialNumber
      ∧ (Eeprom_GetModuleInfo g (some oldSerial) (some oldInfo) (some oldMac)).productNumberInfo
        = some g.g_productNumberInfo
      ∧ (Eeprom_GetModuleInfo g (some oldSerial) (some oldInfo) (some oldMac)).macAddress
        = some g.g_macAddress
      ∧ (Eeprom_GetModuleInfo g (some oldSerial) (some oldInfo) (some oldMac)).globals = g)
    ∧ ((Eeprom_GetModuleInfo (initialGlobals zeroInfo) (some oldSerial) (some oldInfo)
          (some oldMac)).result = EN_SUCCESS
      ∧ (Eeprom_GetModuleInfo (initialGlobals zeroInfo) (some oldSerial) (some oldInfo)
          (some oldMac)).serialNumber = some 0
      ∧ (Eeprom_GetModuleInfo (initialGlobals zeroInfo) (some oldSerial) (some oldInfo)
          (some oldMac)).productNumberInfo = some zeroInfo
      ∧ (Eeprom_GetModuleInfo (initialGlobals zeroInfo) (some oldSerial) (some oldInfo)
          (some oldMac)).macAddress = some 0) := by
  simp [Eeprom_GetModuleInfo, initialGlobals]

/-- C7. `Eeprom_Initialise` returns success, sets the device type to
`EEepromDevice_AtmelAtsha204a` (0x64) whatever it was, makes no collaborator
call (world and call log are untouched), leaves serial number, product-number
info and MAC address unchanged, and a second call changes nothing more. -/
theorem initialise_fixed_device {σ PNI : Type} (c : Collaborators σ PNI) (w : σ)
    (l : List BusEvent) (g : Globals PNI) :
    (Eeprom_Initialise g).2 = EN_SUCCESS
      ∧ (Eeprom_Initialise g).1.g_EepromDeviceType = EEepromDevice_AtmelAtsha204a
      ∧ EEepromDevice_AtmelAtsha204a = 0x64
      ∧ (apiCall (traced c) ApiCall.Initialise (w, l) g).world = (w, l)
      ∧ (apiCall (traced c) ApiCall.Initialise (w, l) g).result = EN_SUCCESS
      ∧ (apiCall (traced c) ApiCall.Initialise (w, l) g).globals = (Eeprom_Initialise g).1
      ∧ (Eeprom_Initialise g).1.g_moduleSerialNumber = g.g_moduleSerialNumber
      ∧ (Eeprom_Initialise g).1.g_productNumberInfo = g.g_productNumberInfo
      ∧ (Eeprom_Initialise g).1.g_macAddress = g.g_macAddress
      ∧ Eeprom_Initialise (Eeprom_Initialise g).1 = Eeprom_Initialise g := by
  simp [Eeprom_Initialise, DetermineEepromType, apiCall, EEepromDevice_AtmelAtsha204a]


/-- The function `Eeprom_Read` returns what `Eeprom_ReadBasicModuleInfo` returns. -/
theorem Eeprom_Read_eq {σ PNI : Type} (c : Collaborators σ PNI) (w : σ) (g : Globals PNI) :
    Eeprom_Read c w g = Eeprom_ReadBasicModuleInfo c w g := by
  unfold Eeprom_Read
  by_cases h : EN_FAILED (Eeprom_ReadBasicModuleInfo c w g).result = true
  · simp [h]
  · have h2 : (Eeprom_ReadBasicModuleInfo c w g).result = EN_SUCCESS := by
      simpa [EN_FAILED_iff] using h
    simp only [h, Bool.false_eq_true, if_false]
    rw [← h2]

/-- C6, refuted as stated: after one successful `Eeprom_ReadBasicModuleInfo`
(serial number 1), a second call, and likewise `Eeprom_Read`, on a transport
that now answers serial number 2 overwrites the stored serial number. -/
theorem write_once_refuted :
    afterFirstRead.result = EN_SUCCESS
      ∧ afterFirstRead.globals.g_moduleSerialNumber = 1
      ∧ (apiCall (stub rereadScript none 0 4 16) ApiCall.ReadBasicModuleInfo
          afterFirstRead.world afterFirstRead.globals).globals.g_moduleSerialNumber = 2
      ∧ (apiCall (stub rereadScript none 0 4 16) ApiCall.Read
          afterFirstRead.world afterFirstRead.globals).globals.g_moduleSerialNumber = 2 := by
  decide

/-- C6, amended: `Eeprom_Initialise` and `Eeprom_GetModuleInfo` never change
serial number, product-number info or MAC address; `Eeprom_Read` is
`Eeprom_ReadBasicModuleInfo`, and a successful `Eeprom_ReadBasicModuleInfo`
overwrites the three fields with the values decoded from its own four reads,
whatever was stored before. -/
theorem write_once_amended {σ PNI : Type} (c : Collaborators σ PNI) (w : σ) (g : Globals PNI) :
    ((apiCall c ApiCall.Initialise w g).globals.g_moduleSerialNumber = g.g_moduleSerialNumber
        ∧ (apiCall c ApiCall.Initialise w g).globals.g_productNumberInfo = g.g_productNumberInfo
        ∧ (apiCall c ApiCall.Initialise w g).globals.g_macAddress = g.g_macAddress)
      ∧ (∀ p1 p2 p3, (apiCall c (ApiCall.GetModuleInfo p1 p2 p3) w g).globals = g)
      ∧ apiCall c ApiCall.Read w g = apiCall c ApiCall.ReadBasicModuleInfo w g
      ∧ apiCall c ApiCall.ReadBasicModuleInfo w g = Eeprom_ReadBasicModuleInfo c w g
      ∧ (∀ s p h1 h2, (Eeprom_ReadBasicModuleInfo c w g).result = EN_SUCCESS →
          readBuffers (busLog c w g) = [s, p, h1, h2] →
          (Eeprom_ReadBasicModuleInfo c w g).globals =
            { g with
              g_moduleSerialNumber := ByteArrayToUnsignedInt32 s
              g_productNumberInfo := c.ParseProductNumber (ByteArrayToUnsignedInt32 p)
              g_macAddress := ByteArrayToUnsignedInt64 (fillFullMacAddressBuffer h1 h2) }) := by
  refine ⟨by simp [apiCall, Eeprom_Initialise, DetermineEepromType], ?_, ?_, rfl, ?_⟩
  · intro p1 p2 p3
    simp only [apiCall, Eeprom_GetModuleInfo]
    split <;> rfl
  · simp only [apiCall, Eeprom_Read_eq]
  · intro s p h1 h2 hok hreads
    rcases run_cases c w g with h | h | h | h | h | h | h | h | h <;>
      simp_all [readBuffers, allEvents, encodeEvent, readEvent]

/-- C6 amended, on the stub: the second read pass stores serial number 2. -/
theorem write_once_amended_witness :
    (Eeprom_ReadBasicModuleInfo (stub rereadScript none 0 4 16) afterFirstRead.world
        afterFirstRead.globals).globals.g_moduleSerialNumber = 2 :=
  congrArg Globals.g_moduleSerialNumber
    ((write_once_amended (stub rereadScript none 0 4 16) afterFirstRead.world
      afterFirstRead.globals).2.2.2.2 ⟨0x00, 0x00, 0x00, 0x02⟩ ⟨0x00, 0x00, 0x00, 0x2A⟩
      ⟨0xAA, 0xBB, 0xCC, 0xDD⟩ ⟨0xEE, 0xFF, 0x00, 0x00⟩ (by decide) (by decide))

/-- C8, refuted as stated: with the serial-number byte address 1024 the word
offset passed to the first encode is 0, not 1024 / 4 = 256. -/
theorem word_offset_wraps :
    wordOffsets (busLog (stub scenarioScript none 1024 4 16) stubStart (initialGlobals (0, 0)))
        = [0, 1, 4, 5]
      ∧ (wordOffsets (busLog (stub scenarioScript none 1024 4 16) stubStart
          (initialGlobals (0, 0)))).head? ≠ some (1024 / 4) := by
  decide

/-- C8, amended: the word offsets passed to the encoder are, in call order, a
prefix of `serial / 4 mod 256`, `product / 4 mod 256`, `mac / 4 mod 256`,
`mac / 4 mod 256 + 1` (all four in a successful run); when the three byte
addresses are below 1024 these are `serial / 4`, `product / 4`, `mac / 4` and
`mac / 4 + 1`. -/
theorem word_offsets_amended {σ PNI : Type} (c : Collaborators σ PNI) (w : σ) (g : Globals PNI) :
    wordOffsets (busLog c w g) <+:
        [c.MODULE_INFO_ADDRESS_SERIAL_NUMBER / 4 % 256,
          c.MODULE_INFO_ADDRESS_PRODUCT_NUMBER / 4 % 256,
          c.MODULE_INFO_ADDRESS_MAC_ADDRESS / 4 % 256,
          c.MODULE_INFO_ADDRESS_MAC_ADDRESS / 4 % 256 + 1]
      ∧ ((Eeprom_ReadBasicModuleInfo c w g).result = EN_SUCCESS →
          wordOffsets (busLog c w g) =
            [c.MODULE_INFO_ADDRESS_SERIAL_NUMBER / 4 % 256,
              c.MODULE_INFO_ADDRESS_PRODUCT_NUMBER / 4 % 256,
              c.MODULE_INFO_ADDRESS_MAC_ADDRESS / 4 % 256,
              c.MODULE_INFO_ADDRESS_MAC_ADDRESS / 4 % 256 + 1])
      ∧ (c.MODULE_INFO_ADDRESS_SERIAL_NUMBER < 1024 →
          c.MODULE_INFO_ADDRESS_PRODUCT_NUMBER < 1024 →
          c.MODULE_INFO_ADDRESS_MAC_ADDRESS < 1024 →
          wordOffsets (busLog c w g) <+:
              [c.MODULE_INFO_ADDRESS_SERIAL_NUMBER / 4,
                c.MODULE_INFO_ADDRESS_PRODUCT_NUMBER / 4,
                c.MODULE_INFO_ADDRESS_MAC_ADDRESS / 4,
                c.MODULE_INFO_ADDRESS_MAC_ADDRESS / 4 + 1]
            ∧ ((Eeprom_ReadBasicModuleInfo c w g).result = EN_SUCCESS →
              wordOffsets (busLog c w g) =
                [c.MODULE_INFO_ADDRESS_SERIAL_NUMBER / 4,
                  c.MODULE_INFO_ADDRESS_PRODUCT_NUMBER / 4,
                  c.MODULE_INFO_ADDRESS_MAC_ADDRESS / 4,
                  c.MODULE_INFO_ADDRESS_MAC_ADDRESS / 4 + 1])) := by
  have hpre : wordOffsets (busLog c w g) <+:
        [c.MODULE_INFO_ADDRESS_SERIAL_NUMBER / 4 % 256,
          c.MODULE_INFO_ADDRESS_PRODUCT_NUMBER / 4 % 256,
          c.MODULE_INFO_ADDRESS_MAC_ADDRESS / 4 % 256,
          c.MODULE_INFO_ADDRESS_MAC_ADDRESS / 4 % 256 + 1] := by
    rcases run_cases c w g with h | h | h | h | h | h | h | h | h
    · rw [h.2.2]; exact ⟨_, rfl⟩
    · rw [h.2.2.2]; exact ⟨_, rfl⟩
    · rw [h.2.2.2.2]; exact ⟨_, rfl⟩
    · rw [h.2.2.2.2.2]; exact ⟨_, rfl⟩
    · rw [h.2.2.2.2.2.2]; exact ⟨_, rfl⟩
    · rw [h.2.2.2.2.2.2.2]; exact ⟨_, rfl⟩
    · rw [h.2.2.2.2.2.2.2.2]; exact ⟨_, rfl⟩
    · rw [h.2.2.2.2.2.2.2.2.2]; exact ⟨_, rfl⟩
    · rw [h.2.2.2.2.2.2.2.2.2]; exact ⟨_, rfl⟩
  have hall : (Eeprom_ReadBasicModuleInfo c w g).result = EN_SUCCESS →
          wordOffsets (busLog c w g) =
            [c.MODULE_INFO_ADDRESS_SERIAL_NUMBER / 4 % 256,
              c.MODULE_INFO_ADDRESS_PRODUCT_NUMBER / 4 % 256,
              c.MODULE_INFO_ADDRESS_MAC_ADDRESS / 4 % 256,
              c.MODULE_INFO_ADDRESS_MAC_ADDRESS / 4 % 256 + 1] := by
    intro hok
    rcases run_cases c w g with h | h | h | h | h | h | h | h | h <;>
      simp_all [wordOffsets, allEvents, encodeEvent, readEvent]
  refine ⟨hpre, hall, fun hS hP hM => ?_⟩
  have e1 : c.MODULE_INFO_ADDRESS_SERIAL_NUMBER / 4 % 256
      = c.MODULE_INFO_ADDRESS_SERIAL_NUMBER / 4 := by omega
  have e2 : c.MODULE_INFO_ADDRESS_PRODUCT_NUMBER / 4 % 256
      = c.MODULE_INFO_ADDRESS_PRODUCT_NUMBER / 4 := by omega
  have e3 : c.MODULE_INFO_ADDRESS_MAC_ADDRESS / 4 % 256
      = c.MODULE_INFO_ADDRESS_MAC_ADDRESS / 4 := by omega
  rw [e1, e2, e3] at hpre hall
  exact ⟨hpre, hall⟩

/-- C8 amended, on the spec's examples: byte addresses 8 and 10 both give word
offset 2; MAC byte address 16 gives 4 and then 5. -/
theorem word_offsets_amended_witness :
    wordOffsets (busLog (stub scenarioScript none 8 10 16) stubStart (initialGlobals (0, 0)))
      = [8 / 4, 10 / 4, 16 / 4, 16 / 4 + 1]
    ∧ [8 / 4, 10 / 4, 16 / 4, 16 / 4 + 1] = [2, 2, 4, 5] :=
  ⟨((word_offsets_amended (stub scenarioScript none 8 10 16) stubStart
      (initialGlobals (0, 0))).2.2 (by decide) (by decide) (by decide)).2 (by decide),
    by decide⟩


/-- C9. A failing `Eeprom_ReadBasicModuleInfo` neither rolls back nor writes
past the failure. With calls numbered from 0 in the order serial encode, serial
read, product encode, product read, MAC encode, MAC read, MAC encode, MAC read:
if the first failing call is 0 or 1 the globals are unchanged; if it is 2 or 3
only the serial number has changed, to the value decoded from the first read;
if it is 4 to 7 only the serial number and product-number info have changed, to
the values decoded from the first and second reads, and the MAC address is the
previous one. Every failing run is one of these cases. -/
theorem failure_no_rollback {σ PNI : Type} (c : Collaborators σ PNI) (w : σ)
    (g : Globals PNI) :
    ((firstFailure (busLog c w g) = some 0 ∨ firstFailure (busLog c w g) = some 1) →
        (Eeprom_ReadBasicModuleInfo c w g).globals = g)
      ∧ ((firstFailure (busLog c w g) = some 2 ∨ firstFailure (busLog c w g) = some 3) →
        ∃ s rest, readBuffers (busLog c w g) = s :: rest
          ∧ (Eeprom_ReadBasicModuleInfo c w g).globals =
            { g with g_moduleSerialNumber := ByteArrayToUnsignedInt32 s })
      ∧ ((firstFailure (busLog c w g) = some 4 ∨ firstFailure (busLog c w g) = some 5
            ∨ firstFailure (busLog c w g) = some 6 ∨ firstFailure (busLog c w g) = some 7) →
        ∃ s p rest, readBuffers (busLog c w g) = s :: p :: rest
          ∧ (Eeprom_ReadBasicModuleInfo c w g).globals =
            { g with
              g_moduleSerialNumber := ByteArrayToUnsignedInt32 s
              g_productNumberInfo := c.ParseProductNumber (ByteArrayToUnsignedInt32 p) })
      ∧ ((Eeprom_ReadBasicModuleInfo c w g).result ≠ EN_SUCCESS →
        ∃ k, k < 8 ∧ firstFailure (busLog c w g) = some k) := by
  rcases run_cases c w g with h | h | h | h | h | h | h | h | h <;>
    simp_all [firstFailure, readBuffers, allEvents, encodeEvent, readEvent, BusEvent.result,
      EN_FAILED]
  all_goals exact ⟨_, _, ⟨rfl, rfl⟩, rfl, rfl⟩

/-- C9 on a stub whose first MAC read (call 5) fails: serial number and
product-number info are the newly read ones, the MAC address is still 0. -/
theorem failure_no_rollback_witness :
    firstFailure (busLog (stub failingScript none 0 4 16) stubStart (initialGlobals (0, 0)))
        = some 5
      ∧ (Eeprom_ReadBasicModuleInfo (stub failingScript none 0 4 16) stubStart
          (initialGlobals (0, 0))).globals
        = { g_EepromDeviceType := 0, g_moduleSerialNumber := 1,
            g_productNumberInfo := (0, 42), g_macAddress := 0 } :=
  ⟨by decide,
    match (failure_no_rollback (stub failingScript none 0 4 16) stubStart
      (initialGlobals (0, 0))).2.2.1 (Or.inr (Or.inl (by decide))) with
    | ⟨_, _, _, hr, hg⟩ => by
        rw [hg]
        have h2 : readBuffers (busLog (stub failingScript none 0 4 16) stubStart
            (initialGlobals (0, 0)))
            = [⟨0x00, 0x00, 0x00, 0x01⟩, ⟨0x00, 0x00, 0x00, 0x2A⟩, ⟨0, 0, 0, 0⟩] := by decide
        rw [h2] at hr
        simp only [List.cons.injEq] at hr
        obtain ⟨rfl, rfl, -⟩ := hr
        decide⟩

/-- C10. When every step of `Eeprom_ReadBasicModuleInfo` succeeds, the
collaborator calls are exactly four encode/read pairs, in the order serial,
product, MAC first half, MAC second half; every encode is for the OTP zone and
slot 0, and every read is a 4-byte read of the OTP zone at the address the
encode just before it produced. -/
theorem call_sequence {σ PNI : Type} (c : Collaborators σ PNI) (w : σ) (g : Globals PNI)
    (hsteps : ∀ ev ∈ busLog c w g, ev.result = EN_SUCCESS) :
    ∃ a1 a2 a3 a4 : Nat, ∃ b1 b2 b3 b4 : Buf4,
      busLog c w g =
        [ BusEvent.encode EZoneSelect_Otp 0 (c.MODULE_INFO_ADDRESS_SERIAL_NUMBER / 4 % 256)
            EN_SUCCESS a1,
          BusEvent.read EReadSizeSelect_4Bytes EZoneSelect_Otp a1 EN_SUCCESS b1,
          BusEvent.encode EZoneSelect_Otp 0 (c.MODULE_INFO_ADDRESS_PRODUCT_NUMBER / 4 % 256)
            EN_SUCCESS a2,
          BusEvent.read EReadSizeSelect_4Bytes EZoneSelect_Otp a2 EN_SUCCESS b2,
          BusEvent.encode EZoneSelect_Otp 0 (c.MODULE_INFO_ADDRESS_MAC_ADDRESS / 4 % 256)
            EN_SUCCESS a3,
          BusEvent.read EReadSizeSelect_4Bytes EZoneSelect_Otp a3 EN_SUCCESS b3,
          BusEvent.encode EZoneSelect_Otp 0 (c.MODULE_INFO_ADDRESS_MAC_ADDRESS / 4 % 256 + 1)
            EN_SUCCESS a4,
          BusEvent.read EReadSizeSelect_4Bytes EZoneSelect_Otp a4 EN_SUCCESS b4 ] := by
  rcases run_cases c w g with h | h | h | h | h | h | h | h | h <;>
    simp_all [allEvents, encodeEvent, readEvent, BusEvent.result]

/-- C10 on the end-to-end scenario (byte addresses 0, 4, 16; the stub's
encoder answers `8 * slot + offset`). -/
theorem call_sequence_witness :
    ∃ a1 a2 a3 a4 : Nat, ∃ b1 b2 b3 b4 : Buf4,
      busLog (stub scenarioScript none 0 4 16) stubStart (initialGlobals (0, 0)) =
        [ BusEvent.encode EZoneSelect_Otp 0 (0 / 4 % 256) EN_SUCCESS a1,
          BusEvent.read EReadSizeSelect_4Bytes EZoneSelect_Otp a1 EN_SUCCESS b1,
          BusEvent.encode EZoneSelect_Otp 0 (4 / 4 % 256) EN_SUCCESS a2,
          BusEvent.read EReadSizeSelect_4Bytes EZoneSelect_Otp a2 EN_SUCCESS b2,
          BusEvent.encode EZoneSelect_Otp 0 (16 / 4 % 256) EN_SUCCESS a3,
          BusEvent.read EReadSizeSelect_4Bytes EZoneSelect_Otp a3 EN_SUCCESS b3,
          BusEvent.encode EZoneSelect_Otp 0 (16 / 4 % 256 + 1) EN_SUCCESS a4,
          BusEvent.read EReadSizeSelect_4Bytes EZoneSelect_Otp a4 EN_SUCCESS b4 ] :=
  call_sequence (stub scenarioScript none 0 4 16) stubStart (initialGlobals (0, 0)) (by decide)

end ModuleEeprom
